import Mathlib

/-!
# slack.go: AuthTest and debug tracing

A shallow embedding of `slack.go`: the response types, the client, `New`,
`AuthTest` / `AuthTestContext`, `SetLogger`, `SetDebug`, `Debugf` and `Debugln`.

Conventions of the embedding.

* A Go pointer result that may be nil is an `Option`; a Go `error` result is an
  `Option GoError` (`none` is the nil error).
* The package variable `logger` and the bytes handed to writers live in an explicit
  `World` that every stateful function threads through.
* A `*Client` is an address into `System.clients`; every address holds a client
  made by `New`.
* The request helper `post` is defined in another file of the package. The functions
  that call it take it as an argument: a state transformer over an arbitrary type of
  external state.
-/

namespace Slack

/-! ## Data model -/

/-- Go `error` values seen by this file: those built by `errors.New`, and the failures a
request can end with (transport, JSON decoding, context cancellation). -/
inductive GoError where
  | errorString (s : String)
  | transport (msg : String)
  | decode (msg : String)
  | canceled (msg : String)
  deriving DecidableEq, Repr

/-- The `Error()` method of the `error` interface. -/
def GoError.Error : GoError → String
  | .errorString s => s
  | .transport msg => msg
  | .decode msg => msg
  | .canceled msg => msg

/-- The function `errors.New`. -/
def errors.New (text : String) : GoError := .errorString text

/-- A `context.Context`: the background context, or one derived from a parent with a
cancellation signal. -/
inductive Context where
  | Background
  | WithCancel (parent : Context) (id : Nat)
  deriving DecidableEq, Repr

/-- The type `url.Values`, a map from keys to lists of values, as an association list. -/
abbrev Values := List (String × List String)

/-- The struct `SlackResponse`. -/
structure SlackResponse where
  Ok : Bool := false
  Error : String := ""
  deriving DecidableEq, Repr

/-- The struct `AuthTestResponse`. -/
structure AuthTestResponse where
  URL : String := ""
  Team : String := ""
  User : String := ""
  TeamID : String := ""
  UserID : String := ""
  deriving DecidableEq, Repr

/-- The struct `authTestResponseFull`: both structs embedded side by side. -/
structure authTestResponseFull where
  SlackResponse : SlackResponse := {}
  AuthTestResponse : AuthTestResponse := {}
  deriving DecidableEq, Repr

/-- Field promotion through the embedded `SlackResponse`: `responseFull.Ok`. -/
def authTestResponseFull.Ok (r : authTestResponseFull) : Bool := r.SlackResponse.Ok

/-- Field promotion through the embedded `SlackResponse`: `responseFull.Error`. -/
def authTestResponseFull.Error (r : authTestResponseFull) : String := r.SlackResponse.Error

/-- Modelled from the spec: the type `Info` is declared outside this file; the spec only
calls it an opaque state snapshot, so it is an uninterpreted document here. -/
structure Info where
  snapshot : Option String := none
  deriving DecidableEq, Repr

/-- The anonymous struct of the `config` field of `Client`. -/
structure Config where
  token : String := ""
  deriving DecidableEq, Repr

/-- The struct `Client`. -/
structure Client where
  config : Config := {}
  info : Info := {}
  debug : Bool := false
  deriving DecidableEq, Repr

/-- The function `New`: a zero client with the token stored. -/
def New (token : String) : Client :=
  let s : Client := {}
  { s with config := { s.config with token := token } }

/-! ## The request helper and AuthTest -/

/-- The shape of the request helper `post(ctx, path, values, intf, debug)`, specialised
to the one decode target this file passes. It receives the target, returns it as filled
together with the error result, and may change the external state `σ`. -/
abbrev PostFn (σ : Type) :=
  Context → String → Values → authTestResponseFull → Bool → σ →
    (authTestResponseFull × Option GoError) × σ

/-- The method `Client.AuthTestContext`. -/
def AuthTestContext {σ : Type} (post : PostFn σ) (api : Client) (ctx : Context) (s : σ) :
    (Option AuthTestResponse × Option GoError) × σ :=
  let responseFull : authTestResponseFull := {}
  match post ctx "auth.test" [("token", [api.config.token])] responseFull api.debug s with
  | ((responseFull, err), s) =>
    match err with
    | some err => ((none, some err), s)
    | none =>
      if !responseFull.Ok then
        ((none, some (errors.New responseFull.Error)), s)
      else
        ((some responseFull.AuthTestResponse, none), s)

/-- The method `Client.AuthTest`. -/
def AuthTest {σ : Type} (post : PostFn σ) (api : Client) (s : σ) :
    (Option AuthTestResponse × Option GoError) × σ :=
  AuthTestContext post api Context.Background s

/-- One recorded call of the request helper: its arguments. -/
structure PostCall where
  ctx : Context
  path : String
  values : Values
  intf : authTestResponseFull
  debug : Bool
  deriving DecidableEq, Repr

/-- A request helper that appends every call it receives to a log and answers with
`answer`. -/
def recording (answer : PostCall → authTestResponseFull × Option GoError) :
    PostFn (List PostCall) :=
  fun ctx path values intf debug log =>
    (answer ⟨ctx, path, values, intf, debug⟩, log ++ [⟨ctx, path, values, intf, debug⟩])

/-! ## Response decoding, as the spec describes it -/

/-- A JSON value of a flat response object; arrays and objects are kept as raw text. -/
inductive JSONValue where
  | null
  | bool (b : Bool)
  | number (n : Int)
  | string (s : String)
  | composite (raw : String)
  deriving DecidableEq, Repr

/-- A flat JSON object: its top-level fields. -/
abbrev Document := List (String × JSONValue)

/-- A response body: a flat JSON object, or something that is not one. -/
inductive Body where
  | object (doc : Document)
  | malformed (raw : String)
  deriving DecidableEq, Repr

/-- Modelled from the spec: decoding of one string field of the response document, part
of the request helper that is not in this file. A field that is present must be a JSON
string; an absent field keeps the value the target already has. -/
def decodeString (doc : Document) (key : String) (current : String) : Except GoError String :=
  match doc.lookup key with
  | none => .ok current
  | some (.string s) => .ok s
  | some _ => .error (.decode key)

/-- Modelled from the spec: first phase of decoding in the request helper that is not in
this file, the generic envelope `ok` (a boolean, required) and `error` (a string,
optional). -/
def decodeEnvelope (doc : Document) (current : SlackResponse) : Except GoError SlackResponse :=
  match doc.lookup "ok" with
  | some (.bool ok) =>
    match decodeString doc "error" current.Error with
    | .ok e => .ok { Ok := ok, Error := e }
    | .error err => .error err
  | _ => .error (.decode "ok")

/-- Modelled from the spec: second phase of decoding in the request helper that is not
in this file, the AuthTest payload fields `url`, `team`, `user`, `team_id`, `user_id`
read from the same flat document. -/
def decodePayload (doc : Document) (current : AuthTestResponse) :
    Except GoError AuthTestResponse :=
  match decodeString doc "url" current.URL, decodeString doc "team" current.Team,
      decodeString doc "user" current.User, decodeString doc "team_id" current.TeamID,
      decodeString doc "user_id" current.UserID with
  | .ok url, .ok team, .ok user, .ok teamID, .ok userID =>
    .ok { URL := url, Team := team, User := user, TeamID := teamID, UserID := userID }
  | .error err, _, _, _, _ => .error err
  | _, .error err, _, _, _ => .error err
  | _, _, .error err, _, _ => .error err
  | _, _, _, .error err, _ => .error err
  | _, _, _, _, .error err => .error err

/-- Modelled from the spec: the request helper `post`, which is not in this file. One
round trip through `transport`; when debugging, the method name and the body are handed
to `trace`; then two-phase decoding: the envelope first, and only when `ok` is true the
payload. With `ok` false it stops with the payload untouched, and the caller turns the
envelope into the application error. -/
def postSpec {σ : Type}
    (transport : Context → String → Values → σ → Except GoError Body × σ)
    (trace : String → Body → σ → σ) : PostFn σ :=
  fun ctx path values intf debug s =>
    match transport ctx path values s with
    | (.error err, s) => ((intf, some err), s)
    | (.ok body, s) =>
      let s := if debug then trace path body s else s
      match body with
      | .malformed raw => ((intf, some (.decode raw)), s)
      | .object doc =>
        match decodeEnvelope doc intf.SlackResponse with
        | .error err => ((intf, some err), s)
        | .ok envelope =>
          let intf := { intf with SlackResponse := envelope }
          if !envelope.Ok then ((intf, none), s)
          else
            match decodePayload doc intf.AuthTestResponse with
            | .error err => ((intf, some err), s)
            | .ok payload => (({ intf with AuthTestResponse := payload }, none), s)

/-! ## Logging -/

/-- An `io.Writer` a logger can write to. -/
inductive Writer where
  | Stdout
  | Stderr
  | other (id : Nat)
  deriving DecidableEq, Repr

/-- The flag constants of package `log`. -/
def log.Ldate : Nat := 1
/-- Flag `log.Ltime`. -/
def log.Ltime : Nat := 2
/-- Flag `log.Lmicroseconds`. -/
def log.Lmicroseconds : Nat := 4
/-- Flag `log.Llongfile`. -/
def log.Llongfile : Nat := 8
/-- Flag `log.Lshortfile`. -/
def log.Lshortfile : Nat := 16
/-- Flag `log.LstdFlags`. -/
def log.LstdFlags : Nat := log.Ldate ||| log.Ltime

/-- A `log.Logger`: the writer, the line label and the flags it was built with. -/
structure Logger where
  out : Writer
  label : String
  flag : Nat
  deriving DecidableEq, Repr

/-- A value passed as `interface{}` to a trace call. -/
inductive GoValue where
  | nil
  | bool (b : Bool)
  | int (n : Int)
  | string (s : String)
  deriving DecidableEq, Repr

/-- What a logger was asked to print. -/
inductive LogCall where
  | Printf (format : String) (v : List GoValue)
  | Println (v : List GoValue)
  deriving DecidableEq, Repr

/-- One write: the logger that wrote to its writer, and the call it rendered. -/
structure Write where
  logger : Logger
  call : LogCall
  deriving DecidableEq, Repr

/-- A run-time panic. -/
inductive Panic where
  | nilPointerDereference
  deriving DecidableEq, Repr

/-- The process-wide state: the package variable `logger`, the loggers built by
`log.New` so far, and the writes performed so far. -/
structure World where
  logger : Option Logger := none
  created : List Logger := []
  output : List Write := []
  deriving DecidableEq, Repr

/-- The function `log.New`: builds a logger, which the world records. -/
def log.New (out : Writer) (label : String) (flag : Nat) (w : World) : Logger × World :=
  let l : Logger := { out := out, label := label, flag := flag }
  (l, { w with created := w.created ++ [l] })

/-- The methods `(*log.Logger).Printf` and `Println`: one write to the writer of the
logger; a nil receiver panics. -/
def Logger.print (l : Option Logger) (call : LogCall) (w : World) : Except Panic World :=
  match l with
  | none => .error .nilPointerDereference
  | some l => .ok { w with output := w.output ++ [⟨l, call⟩] }

/-- The function `SetLogger`. -/
def SetLogger (l : Option Logger) (w : World) : World :=
  { w with logger := l }

/-- The method `Client.SetDebug`. -/
def SetDebug (api : Client) (debug : Bool) (w : World) : Client × World :=
  let api := { api with debug := debug }
  if debug && w.logger == none then
    match log.New .Stdout "nlopes/slack" (log.LstdFlags ||| log.Lshortfile) w with
    | (l, w) => (api, { w with logger := some l })
  else
    (api, w)

/-- The method `Client.Debugf`. -/
def Debugf (api : Client) (format : String) (v : List GoValue) (w : World) :
    Except Panic World :=
  if api.debug then
    Logger.print w.logger (.Printf format v) w
  else
    .ok w

/-- The method `Client.Debugln`. -/
def Debugln (api : Client) (v : List GoValue) (w : World) : Except Panic World :=
  if api.debug then
    Logger.print w.logger (.Println v) w
  else
    .ok w

/-- The logger `SetDebug` builds when none is set. -/
def defaultLogger : Logger :=
  { out := .Stdout, label := "nlopes/slack", flag := log.LstdFlags ||| log.Lshortfile }

/-! ## Programs over several clients -/

/-- All clients of the process, by address, and the process-wide state. -/
structure System where
  clients : Nat → Client
  world : World

/-- The initial system: client `i` is `New (tokens i)`, no logger is set, nothing has
been built or written. -/
def System.init (tokens : Nat → String) : System :=
  { clients := fun i => New (tokens i), world := {} }

/-- A configuration call: `SetLogger(l)`, or `SetDebug(debug)` on the client at `c`. -/
inductive Setup where
  | SetLogger (l : Option Logger)
  | SetDebug (c : Nat) (debug : Bool)
  deriving DecidableEq, Repr

/-- A trace call on a client. -/
inductive Trace where
  | Debugf (format : String) (v : List GoValue)
  | Debugln (v : List GoValue)
  deriving DecidableEq, Repr

/-- The logger call a trace call makes when it reaches the logger. -/
def Trace.call : Trace → LogCall
  | .Debugf format v => .Printf format v
  | .Debugln v => .Println v

/-- Runs one trace call on a client. -/
def Trace.run (api : Client) (t : Trace) (w : World) : Except Panic World :=
  match t with
  | .Debugf format v => Slack.Debugf api format v w
  | .Debugln v => Slack.Debugln api v w

/-- Runs trace calls on one client in order, stopping at the first panic. -/
def Trace.runAll (api : Client) : List Trace → World → Except Panic World
  | [], w => .ok w
  | t :: ts, w =>
    match t.run api w with
    | .ok w => Trace.runAll api ts w
    | .error p => .error p

/-- Runs one configuration call. -/
def System.setup (s : System) : Setup → System
  | .SetLogger l => { s with world := SetLogger l s.world }
  | .SetDebug c debug =>
    match SetDebug (s.clients c) debug s.world with
    | (api, w) => { clients := fun i => if i = c then api else s.clients i, world := w }

/-- Runs configuration calls in order. -/
def System.setupAll (s : System) : List Setup → System
  | [] => s
  | c :: cs => (s.setup c).setupAll cs

/-- Runs one trace call on the client at `c`. -/
def System.trace (s : System) (c : Nat) (t : Trace) : Except Panic System :=
  match t.run (s.clients c) s.world with
  | .ok w => .ok { s with world := w }
  | .error p => .error p

/-- The number of `SetLogger(nil)` calls in a sequence. -/
def nilLoggerCalls : List Setup → Nat
  | [] => 0
  | .SetLogger none :: cs => nilLoggerCalls cs + 1
  | _ :: cs => nilLoggerCalls cs

/-- The number of loggers one more `SetDebug(true)` could still build: one while no
logger is set, none afterwards. -/
def pendingLoggers (w : World) : Nat :=
  if w.logger = none then 1 else 0

/-- The tracing invariant: a client with debugging on sees a logger. -/
def loggerPresent (s : System) : Prop :=
  ∀ i : Nat, (s.clients i).debug = true → s.world.logger ≠ none

/-! ## AuthTest: results -/

/-- The parameter map `AuthTestContext` sends: the single key `token`. -/
theorem authTestValues_keys (token : String) :
    (([("token", [token])] : Values).map Prod.fst) = ["token"] := rfl

/-- C1: when the request helper returns a nil error and leaves `ok = false` and
`error = e` in the response, `AuthTestContext` returns a nil response and an error
whose message is exactly `e`, for every payload, token and debug flag; `AuthTest` does
the same with the background context. -/
theorem authTest_application_error {σ : Type} (post : PostFn σ) (api : Client)
    (ctx : Context) (s s' : σ) (r : authTestResponseFull) (e : String)
    (hpost : post ctx "auth.test" [("token", [api.config.token])] {} api.debug s
      = ((r, none), s'))
    (hok : r.Ok = false) (herr : r.Error = e) :
    AuthTestContext post api ctx s = ((none, some (errors.New e)), s') ∧
    (errors.New e).Error = e ∧
    (ctx = Context.Background →
      AuthTest post api s = ((none, some (errors.New e)), s')) := by
  have main : AuthTestContext post api ctx s = ((none, some (errors.New e)), s') := by
    simp [AuthTestContext, hpost, hok, herr]
  refine ⟨main, rfl, ?_⟩
  intro hctx
  subst hctx
  exact main

/-- C1 at a concrete input: a revoked token with a filled payload. -/
theorem authTest_application_error_witness :
    AuthTestContext
        (recording fun _ =>
          (⟨⟨false, "invalid_auth"⟩, ⟨"https://t.slack.com/", "t", "u", "T1", "U1"⟩⟩, none))
        (New "xoxb-revoked") Context.Background []
      = ((none, some (errors.New "invalid_auth")),
          [⟨Context.Background, "auth.test", [("token", ["xoxb-revoked"])], {}, false⟩]) ∧
    (errors.New "invalid_auth").Error = "invalid_auth" :=
  have h := authTest_application_error
    (recording fun _ =>
      (⟨⟨false, "invalid_auth"⟩, ⟨"https://t.slack.com/", "t", "u", "T1", "U1"⟩⟩, none))
    (New "xoxb-revoked") Context.Background []
    [⟨Context.Background, "auth.test", [("token", ["xoxb-revoked"])], {}, false⟩]
    ⟨⟨false, "invalid_auth"⟩, ⟨"https://t.slack.com/", "t", "u", "T1", "U1"⟩⟩
    "invalid_auth" rfl rfl rfl
  ⟨h.1, h.2.1⟩

/-- C2: when the request helper returns a nil error and leaves `ok = true` in the
response, `AuthTestContext` returns a nil error and a response whose five fields are
the five payload fields of that same response, whatever its `error` field holds. -/
theorem authTest_success {σ : Type} (post : PostFn σ) (api : Client)
    (ctx : Context) (s s' : σ) (r : authTestResponseFull)
    (hpost : post ctx "auth.test" [("token", [api.config.token])] {} api.debug s
      = ((r, none), s'))
    (hok : r.Ok = true) :
    ∃ response : AuthTestResponse,
      AuthTestContext post api ctx s = ((some response, none), s') ∧
      response.URL = r.AuthTestResponse.URL ∧
      response.Team = r.AuthTestResponse.Team ∧
      response.User = r.AuthTestResponse.User ∧
      response.TeamID = r.AuthTestResponse.TeamID ∧
      response.UserID = r.AuthTestResponse.UserID := by
  refine ⟨r.AuthTestResponse, ?_, rfl, rfl, rfl, rfl, rfl⟩
  simp [AuthTestContext, hpost, hok]

/-- C2 at a concrete input: `ok = true` with a stray `error` string. -/
theorem authTest_success_witness :
    ∃ response : AuthTestResponse,
      AuthTestContext
          (recording fun _ =>
            (⟨⟨true, "ignored"⟩, ⟨"https://t.slack.com/", "t", "u", "T1", "U1"⟩⟩, none))
          (New "xoxb-1") (Context.WithCancel Context.Background 7) []
        = ((some response, none),
            [⟨Context.WithCancel Context.Background 7, "auth.test",
              [("token", ["xoxb-1"])], {}, false⟩]) ∧
      response.URL = "https://t.slack.com/" ∧
      response.Team = "t" ∧
      response.User = "u" ∧
      response.TeamID = "T1" ∧
      response.UserID = "U1" :=
  authTest_success
    (recording fun _ =>
      (⟨⟨true, "ignored"⟩, ⟨"https://t.slack.com/", "t", "u", "T1", "U1"⟩⟩, none))
    (New "xoxb-1") (Context.WithCancel Context.Background 7) []
    [⟨Context.WithCancel Context.Background 7, "auth.test", [("token", ["xoxb-1"])], {}, false⟩]
    ⟨⟨true, "ignored"⟩, ⟨"https://t.slack.com/", "t", "u", "T1", "U1"⟩⟩ rfl rfl

/-- C3: when the request helper returns an error `err`, `AuthTestContext` returns
that same `err` and a nil response, whatever the helper left in the response and
whether the debug flag of the client is set or not. -/
theorem authTest_helper_error {σ : Type} (post : PostFn σ) (api : Client)
    (ctx : Context) (s s' : σ) (r : authTestResponseFull) (err : GoError)
    (hpost : post ctx "auth.test" [("token", [api.config.token])] {} api.debug s
      = ((r, some err), s')) :
    AuthTestContext post api ctx s = ((none, some err), s') := by
  simp [AuthTestContext, hpost]

/-- C3 at a concrete input: a decode failure that left `ok = true` and a partly filled
payload behind, on a client with debugging on. -/
theorem authTest_helper_error_witness :
    AuthTestContext
        (recording fun _ => (⟨⟨true, ""⟩, ⟨"https://t.slack.com/", "t", "", "", ""⟩⟩,
          some (GoError.decode "user")))
        { New "xoxb-1" with debug := true } Context.Background []
      = ((none, some (GoError.decode "user")),
          [⟨Context.Background, "auth.test", [("token", ["xoxb-1"])], {}, true⟩]) :=
  authTest_helper_error
    (recording fun _ => (⟨⟨true, ""⟩, ⟨"https://t.slack.com/", "t", "", "", ""⟩⟩,
      some (GoError.decode "user")))
    { New "xoxb-1" with debug := true } Context.Background []
    [⟨Context.Background, "auth.test", [("token", ["xoxb-1"])], {}, true⟩]
    ⟨⟨true, ""⟩, ⟨"https://t.slack.com/", "t", "", "", ""⟩⟩ (GoError.decode "user") rfl

/-- C4: on a client built by `New token`, `AuthTestContext ctx` calls the request
helper exactly once, with `ctx`, the method name `auth.test` and the parameter map
whose only key is `token` with the value list `[token]`; `AuthTest` is that call with
the background context. The same holds for every client, with its stored token. -/
theorem authTest_single_call (answer : PostCall → authTestResponseFull × Option GoError)
    (token : String) (api : Client) (ctx : Context) (log : List PostCall) :
    (AuthTestContext (recording answer) (New token) ctx log).2
      = log ++ [⟨ctx, "auth.test", [("token", [token])], {}, false⟩] ∧
    (AuthTest (recording answer) (New token) log).2
      = log ++ [⟨Context.Background, "auth.test", [("token", [token])], {}, false⟩] ∧
    (AuthTestContext (recording answer) api ctx log).2
      = log ++ [⟨ctx, "auth.test", [("token", [api.config.token])], {}, api.debug⟩] ∧
    AuthTest (recording answer) api log
      = AuthTestContext (recording answer) api Context.Background log := by
  have key : ∀ (a : Client) (c : Context),
      (AuthTestContext (recording answer) a c log).2
        = log ++ [⟨c, "auth.test", [("token", [a.config.token])], {}, a.debug⟩] := by
    intro a c
    simp only [AuthTestContext, recording]
    split
    · rfl
    · split <;> rfl
  exact ⟨key (New token) ctx, key (New token) Context.Background, key api ctx, rfl⟩

/-! ## Decoding order -/

/-- With `ok = true` the spec-described helper does decode the payload: a payload field
of the wrong JSON type is a decode error. -/
theorem postSpec_payload_checked_when_ok :
    AuthTestContext
        (postSpec (fun _ _ _ (s : Unit) =>
            (.ok (.object [("ok", .bool true), ("team", .number 5)]), s))
          (fun _ _ s => s))
        (New "xoxb-1") Context.Background ()
      = ((none, some (GoError.decode "team")), ()) := rfl

/-- C9: with the two-phase request helper, for every response document whose envelope
holds `ok = false` and `error = e`, whatever its payload fields hold (malformed ones
included), `AuthTestContext` returns a nil response and the application error with
message `e`, which is not a decode error. -/
theorem authTest_envelope_first {σ : Type}
    (transport : Context → String → Values → σ → Except GoError Body × σ)
    (trace : String → Body → σ → σ) (api : Client) (ctx : Context) (s s' : σ)
    (doc : Document) (e : String)
    (htransport : transport ctx "auth.test" [("token", [api.config.token])] s
      = (.ok (.object doc), s'))
    (hok : doc.lookup "ok" = some (.bool false))
    (herr : doc.lookup "error" = some (.string e)) :
    AuthTestContext (postSpec transport trace) api ctx s
      = ((none, some (errors.New e)),
          if api.debug then trace "auth.test" (.object doc) s' else s') ∧
    (errors.New e).Error = e ∧
    ∀ msg : String, errors.New e ≠ GoError.decode msg := by
  refine ⟨?_, rfl, ?_⟩
  · simp [AuthTestContext, postSpec, htransport, decodeEnvelope, decodeString, hok, herr,
      authTestResponseFull.Ok, authTestResponseFull.Error]
  · intro msg h
    simp [errors.New] at h

/-- C9 at a concrete input: `ok = false` next to a payload field of the wrong type. -/
theorem authTest_envelope_first_witness :
    AuthTestContext
        (postSpec (fun _ _ _ (s : Unit) =>
            (.ok (.object [("ok", .bool false), ("error", .string "invalid_auth"),
              ("team", .number 5), ("user", .null)]), s))
          (fun _ _ s => s))
        (New "xoxb-1") Context.Background ()
      = ((none, some (errors.New "invalid_auth")), ()) :=
  (authTest_envelope_first
    (fun _ _ _ (s : Unit) =>
      (.ok (.object [("ok", .bool false), ("error", .string "invalid_auth"),
        ("team", .number 5), ("user", .null)]), s))
    (fun _ _ s => s) (New "xoxb-1") Context.Background () ()
    [("ok", .bool false), ("error", .string "invalid_auth"), ("team", .number 5),
      ("user", .null)]
    "invalid_auth" rfl rfl rfl).1

/-! ## Tracing -/

/-- Trace calls on a client with debugging on and a logger set: each call appends one
write of that logger. -/
theorem runAll_enabled (api : Client) (l : Logger) (hd : api.debug = true)
    (ts : List Trace) (w : World) (hl : w.logger = some l) :
    Trace.runAll api ts w
      = .ok { w with output := w.output ++ ts.map fun t => ⟨l, t.call⟩ } := by
  induction ts generalizing w with
  | nil => simp [Trace.runAll]
  | cons t ts ih =>
    have hstep : t.run api w = .ok { w with output := w.output ++ [⟨l, t.call⟩] } := by
      cases t <;> simp [Trace.run, Debugf, Debugln, hd, hl, Logger.print, Trace.call]
    simp only [Trace.runAll, hstep]
    rw [ih { w with output := w.output ++ [⟨l, t.call⟩] } hl]
    simp

/-- What `SetDebug` does to the process-wide state. -/
theorem SetDebug_world (api : Client) (debug : Bool) (w : World) :
    (SetDebug api debug w).2
      = if debug = true ∧ w.logger = none then
          { w with logger := some defaultLogger, created := w.created ++ [defaultLogger] }
        else w := by
  cases debug <;> cases hl : w.logger <;> simp [SetDebug, hl, log.New, defaultLogger]

/-- What `SetDebug` does to the client. -/
theorem SetDebug_client (api : Client) (debug : Bool) (w : World) :
    (SetDebug api debug w).1 = { api with debug := debug } := by
  unfold SetDebug
  split <;> rfl

/-- C5: on a client whose debug flag is false, `Debugf` and `Debugln` return normally
and leave the process-wide state (logger, loggers built, writes) exactly as it was,
whether a logger is set or not; run on a system they leave every client unchanged too.
A client fresh from `New` and a client after `SetDebug(false)` are such clients. -/
theorem trace_disabled_noop (api : Client) (w : World) (format : String)
    (v : List GoValue) (hd : api.debug = false) :
    Debugf api format v w = .ok w ∧
    Debugln api v w = .ok w ∧
    (∀ (s : System) (c : Nat), s.clients c = api →
      s.trace c (.Debugf format v) = .ok s ∧ s.trace c (.Debugln v) = .ok s) ∧
    (∀ token : String, Debugf (New token) format v w = .ok w ∧
      Debugln (New token) v w = .ok w) ∧
    (∀ (api₀ : Client) (w₀ : World),
      (SetDebug api₀ false w₀).2 = w₀ ∧
      Debugf (SetDebug api₀ false w₀).1 format v w = .ok w ∧
      Debugln (SetDebug api₀ false w₀).1 v w = .ok w) := by
  refine ⟨by simp [Debugf, hd], by simp [Debugln, hd], ?_, ?_, ?_⟩
  · intro s c hc
    constructor <;> simp [System.trace, Trace.run, Debugf, Debugln, hc, hd]
  · intro token
    constructor <;> simp [Debugf, Debugln, New]
  · intro api₀ w₀
    refine ⟨?_, ?_, ?_⟩
    · simp [SetDebug_world]
    · simp [Debugf, SetDebug_client]
    · simp [Debugln, SetDebug_client]

/-- C5 at a concrete input: a fresh client, no logger set. -/
theorem trace_disabled_noop_witness :
    (New "xoxb-1").debug = false ∧
    Debugf (New "xoxb-1") "%s" [.string "x"] {} = .ok {} ∧
    Debugln (New "xoxb-1") [.string "x"] {} = .ok {} :=
  have h := trace_disabled_noop (New "xoxb-1") {} "%s" [.string "x"] rfl
  ⟨rfl, h.1, h.2.1⟩

/-- C6: from a state with no logger set, after `SetDebug(true)` on a client every
following `Debugf` / `Debugln` call on it returns normally and appends exactly one
write, made by the logger `SetDebug` built: standard output, label `nlopes/slack`,
flags `LstdFlags|Lshortfile`. When `SetLogger` supplied a logger `l` before
`SetDebug(true)`, every such call appends exactly one write made by `l`, and no logger
is built. -/
theorem trace_enabled_writes (api : Client) (w : World) (ts : List Trace) (l : Logger)
    (hnil : w.logger = none) :
    Trace.runAll (SetDebug api true w).1 ts (SetDebug api true w).2
      = .ok { logger := some defaultLogger,
              created := w.created ++ [defaultLogger],
              output := w.output ++ ts.map fun t => ⟨defaultLogger, t.call⟩ } ∧
    defaultLogger
      = { out := .Stdout, label := "nlopes/slack", flag := log.LstdFlags ||| log.Lshortfile } ∧
    Trace.runAll (SetDebug api true (SetLogger (some l) w)).1 ts
        (SetDebug api true (SetLogger (some l) w)).2
      = .ok { logger := some l,
              created := w.created,
              output := w.output ++ ts.map fun t => ⟨l, t.call⟩ } := by
  refine ⟨?_, rfl, ?_⟩
  · rw [runAll_enabled _ defaultLogger (by simp [SetDebug_client]) ts _
      (by simp [SetDebug_world, hnil])]
    simp [SetDebug_world, hnil]
  · rw [runAll_enabled _ l (by simp [SetDebug_client]) ts _
      (by simp [SetDebug_world, SetLogger])]
    simp [SetDebug_world, SetLogger]

/-- C6 at a concrete input: two trace calls after the first `SetDebug(true)`. -/
theorem trace_enabled_writes_witness :
    Trace.runAll (SetDebug (New "xoxb-1") true {}).1
        [.Debugf "%d" [.int 1], .Debugln [.string "x"]] (SetDebug (New "xoxb-1") true {}).2
      = .ok { logger := some defaultLogger,
              created := [defaultLogger],
              output := [⟨defaultLogger, .Printf "%d" [.int 1]⟩,
                ⟨defaultLogger, .Println [.string "x"]⟩] } :=
  (trace_enabled_writes (New "xoxb-1") {} [.Debugf "%d" [.int 1], .Debugln [.string "x"]]
    ⟨.Stderr, "app", 0⟩ rfl).1

/-- C7: `SetDebug(d)` sets the debug flag of the client to `d` and touches nothing
else of it. It builds the default logger and stores it exactly when `d` is true and no
logger is set; in every other case the process-wide state, the logger included, is what
it was. So a logger supplied through `SetLogger` stays in place. -/
theorem SetDebug_effect (api : Client) (d : Bool) (w : World) (l : Logger) :
    (SetDebug api d w).1 = { api with debug := d } ∧
    (SetDebug api d w).2
      = (if d = true ∧ w.logger = none then
          { w with logger := some defaultLogger, created := w.created ++ [defaultLogger] }
        else w) ∧
    ((SetDebug api d w).2.created ≠ w.created ↔ (d = true ∧ w.logger = none)) ∧
    (SetDebug api d (SetLogger (some l) w)).2 = SetLogger (some l) w := by
  refine ⟨SetDebug_client api d w, SetDebug_world api d w, ?_, ?_⟩
  · rw [SetDebug_world]
    split <;> simp_all
  · simp [SetDebug_world, SetLogger]

/-! ## Sequences of configuration calls -/

/-- One configuration call builds a logger only by using up a pending one, and only
`SetLogger(nil)` makes one pending again. -/
theorem setup_created_bound (s : System) (c : Setup) :
    (s.setup c).world.created.length + pendingLoggers (s.setup c).world
      ≤ s.world.created.length + pendingLoggers s.world + nilLoggerCalls [c] := by
  cases c with
  | SetLogger l =>
    cases l with
    | none =>
      cases hl : s.world.logger <;>
        simp [System.setup, SetLogger, nilLoggerCalls, pendingLoggers, hl]
    | some l =>
      cases hl : s.world.logger <;>
        simp [System.setup, SetLogger, nilLoggerCalls, pendingLoggers, hl]
  | SetDebug i d =>
    have hw : (s.setup (.SetDebug i d)).world = (SetDebug (s.clients i) d s.world).2 := rfl
    rw [hw, SetDebug_world]
    cases d <;> cases hl : s.world.logger <;> simp [pendingLoggers, hl, nilLoggerCalls]

/-- The bound of `setup_created_bound` over a whole sequence of configuration calls. -/
theorem setupAll_created_bound (cs : List Setup) (s : System) :
    (s.setupAll cs).world.created.length + pendingLoggers (s.setupAll cs).world
      ≤ s.world.created.length + pendingLoggers s.world + nilLoggerCalls cs := by
  induction cs generalizing s with
  | nil => simp [System.setupAll, nilLoggerCalls]
  | cons c cs ih =>
    have h1 := ih (s.setup c)
    have h2 := setup_created_bound s c
    have h3 : nilLoggerCalls (c :: cs) = nilLoggerCalls [c] + nilLoggerCalls cs := by
      cases c with
      | SetLogger l => cases l <;> simp [nilLoggerCalls, Nat.add_comm]
      | SetDebug i d => simp [nilLoggerCalls]
    simp only [System.setupAll]
    omega

/-- C8, as the claim states it, fails: `SetDebug(true)`, `SetLogger(nil)`,
`SetDebug(true)` from the initial state builds the default logger twice. -/
theorem default_logger_built_twice :
    ¬ ((System.init fun _ => "xoxb-1").setupAll
        [.SetDebug 0 true, .SetLogger none, .SetDebug 0 true]).world.created.length ≤ 1 := by
  decide

/-- C8, amended: over every finite sequence of `SetLogger` and `SetDebug` calls on any
clients, from the initial state with no logger, the default logger is built at most once
more than the number of `SetLogger(nil)` calls in the sequence, and every logger built
is the default one. -/
theorem default_logger_built_bound (tokens : Nat → String) (cs : List Setup) :
    ((System.init tokens).setupAll cs).world.created.length ≤ 1 + nilLoggerCalls cs ∧
    ∀ l ∈ ((System.init tokens).setupAll cs).world.created, l = defaultLogger := by
  constructor
  · have h := setupAll_created_bound cs (System.init tokens)
    have h0 : (System.init tokens).world.created.length = 0 := rfl
    have h1 : pendingLoggers (System.init tokens).world = 1 := rfl
    omega
  · have key : ∀ (cs : List Setup) (s : System),
        (∀ l ∈ s.world.created, l = defaultLogger) →
        ∀ l ∈ (s.setupAll cs).world.created, l = defaultLogger := by
      intro cs
      induction cs with
      | nil => intro s hs; exact hs
      | cons c cs ih =>
        intro s hs
        apply ih (s.setup c)
        cases c with
        | SetLogger l => exact hs
        | SetDebug i d =>
          have hw : (s.setup (.SetDebug i d)).world = (SetDebug (s.clients i) d s.world).2 :=
            rfl
          rw [hw, SetDebug_world]
          split
          · intro l hl
            simp only [List.mem_append, List.mem_singleton] at hl
            rcases hl with hl | hl
            · exact hs l hl
            · exact hl
          · exact hs
    exact key cs (System.init tokens) (by intro l hl; cases hl)

/-- A configuration call other than `SetLogger(nil)` keeps the tracing invariant. -/
theorem setup_loggerPresent (s : System) (c : Setup) (hc : c ≠ .SetLogger none)
    (hs : loggerPresent s) : loggerPresent (s.setup c) := by
  cases c with
  | SetLogger l =>
    cases l with
    | none => exact absurd rfl hc
    | some l =>
      intro i _
      simp [System.setup, SetLogger]
  | SetDebug j d =>
    intro i hi
    have hw : (s.setup (.SetDebug j d)).world = (SetDebug (s.clients j) d s.world).2 := rfl
    have hcl : (s.setup (.SetDebug j d)).clients i
        = if i = j then (SetDebug (s.clients j) d s.world).1 else s.clients i := rfl
    rw [hw, SetDebug_world]
    rw [hcl, SetDebug_client] at hi
    by_cases hij : i = j
    · simp only [hij, if_true] at hi
      cases hl : s.world.logger with
      | none => simp [hi]
      | some l => simp [hl]
    · simp only [hij, if_false] at hi
      have := hs i hi
      split
      · simp
      · exact this

/-- C10: in every state reached from the initial state by `SetDebug` calls and
`SetLogger` calls with a non-nil logger, on any clients, a client whose debug flag is
true sees a non-nil logger, so `Debugf` and `Debugln` on it return normally instead of
dereferencing nil. -/
theorem trace_nil_safe (tokens : Nat → String) (cs : List Setup)
    (hcs : ∀ c ∈ cs, c ≠ Setup.SetLogger none) (i : Nat)
    (hd : (((System.init tokens).setupAll cs).clients i).debug = true) :
    ((System.init tokens).setupAll cs).world.logger ≠ none ∧
    (∀ (format : String) (v : List GoValue), ∃ w : World,
      Debugf (((System.init tokens).setupAll cs).clients i) format v
        ((System.init tokens).setupAll cs).world = .ok w) ∧
    (∀ v : List GoValue, ∃ w : World,
      Debugln (((System.init tokens).setupAll cs).clients i) v
        ((System.init tokens).setupAll cs).world = .ok w) := by
  have key : ∀ (cs : List Setup) (s : System), (∀ c ∈ cs, c ≠ Setup.SetLogger none) →
      loggerPresent s → loggerPresent (s.setupAll cs) := by
    intro cs
    induction cs with
    | nil => intro s _ hs; exact hs
    | cons c cs ih =>
      intro s hcs hs
      exact ih (s.setup c) (fun c' hc' => hcs c' (List.mem_cons_of_mem _ hc'))
        (setup_loggerPresent s c (hcs c (List.mem_cons_self _ _)) hs)
  have hinit : loggerPresent (System.init tokens) := by
    intro j hj
    simp [System.init, New] at hj
  have hlog := key cs (System.init tokens) hcs hinit i hd
  refine ⟨hlog, ?_, ?_⟩
  · intro format v
    cases hl : ((System.init tokens).setupAll cs).world.logger with
    | none => exact absurd hl hlog
    | some l => exact ⟨_, by simp only [Debugf, hd, hl, Logger.print, if_true]; rfl⟩
  · intro v
    cases hl : ((System.init tokens).setupAll cs).world.logger with
    | none => exact absurd hl hlog
    | some l => exact ⟨_, by simp only [Debugln, hd, hl, Logger.print, if_true]; rfl⟩

/-- C10 at a concrete input: two clients, a supplied logger, debugging switched on, off
and on again. -/
theorem trace_nil_safe_witness :
    ((System.init fun _ => "xoxb-1").setupAll
      [.SetDebug 0 true, .SetLogger (some ⟨.Stderr, "app", 0⟩), .SetDebug 0 false,
        .SetDebug 1 true]).world.logger ≠ none :=
  (trace_nil_safe (fun _ => "xoxb-1")
    [.SetDebug 0 true, .SetLogger (some ⟨.Stderr, "app", 0⟩), .SetDebug 0 false,
      .SetDebug 1 true]
    (by decide) 1 rfl).1

end Slack
